import Mathlib

/-
  Verification of the Wikipedia MCP server (src/main.py): a thin adapter
  exposing a fixed catalog of tools, each of which validates a small input,
  performs one call to the external wikipedia provider library, and either
  returns a structured result or raises a uniform ToolError whose message is
  the operation's domain label followed by the provider exception's message.

  The provider (the `wikipedia` library) is external to the repository, so it
  is modelled abstractly: a `Provider` maps a title to one of four outcomes
  (a resolved page, a PageError, a DisambiguationError with options, or any
  other exception), and a query to a search outcome.  Each tool returns its
  `Except`-shaped result paired with the number of provider calls it made,
  so that the spec's call-count claims can be stated.
-/

namespace WikipediaMCP

/-- A resolved provider page, carrying the attributes the tools read
(`title`, `url`, `pageid`, `summary`, `content`, `html()`, `images`,
`links`, `references`, `categories`). -/
structure WikiPage where
  title : String
  url : String
  pageid : String
  summary : String
  content : String
  htmlText : String
  images : List String
  links : List String
  references : List String
  categories : List String
deriving DecidableEq, Repr

/-- Outcome of one provider operation: success, the specific PageError kind,
the specific DisambiguationError kind (carrying its `options` and its
exception message), or any other exception (carrying its message). -/
inductive ProviderResult (α : Type) where
  | ok (a : α)
  | pageError (msg : String)
  | disambig (options : List String) (msg : String)
  | otherError (msg : String)
deriving DecidableEq, Repr

/-- The exception message `str(e)` when the outcome is an exception. -/
def ProviderResult.excMsg {α : Type} : ProviderResult α → Option String
  | .ok _ => none
  | .pageError m => some m
  | .disambig _ m => some m
  | .otherError m => some m

/-- The abstract provider: `pageOf` models `wikipedia.page(title)` and
`searchOf` models `wikipedia.search(query)`. -/
structure Provider where
  pageOf : String → ProviderResult WikiPage
  searchOf : String → ProviderResult (List String)

/-- Modelled from the spec: the provider library's `wikipedia.summary(title)`
(code not under src/) resolves the same page as `wikipedia.page(title)` and
returns that page's summary, raising the same error kinds on failure. -/
def Provider.summaryOf (prov : Provider) (t : String) : ProviderResult String :=
  match prov.pageOf t with
  | .ok p => .ok p.summary
  | .pageError m => .pageError m
  | .disambig o m => .disambig o m
  | .otherError m => .otherError m

/-- One call to `wikipedia.page`: the outcome together with a count of 1. -/
def callPage (prov : Provider) (t : String) : ProviderResult WikiPage × Nat :=
  (prov.pageOf t, 1)

/-- One call to `wikipedia.summary`: the outcome together with a count of 1. -/
def callSummary (prov : Provider) (t : String) : ProviderResult String × Nat :=
  (prov.summaryOf t, 1)

/-- One call to `wikipedia.search`: the outcome together with a count of 1. -/
def callSearch (prov : Provider) (q : String) : ProviderResult (List String) × Nat :=
  (prov.searchOf q, 1)

/-- Input schema `WikipediaPageInput`: required field `page : str`. -/
structure WikipediaPageInput where
  page : String
deriving DecidableEq, Repr

/-- Input schema `WikipediaSearchInput`: required field `query : str`. -/
structure WikipediaSearchInput where
  query : String
deriving DecidableEq, Repr

/-- Tool `get_summary`: returns the page summary, or a ToolError whose
message is "Summary error: " followed by the provider exception message. -/
def get_summary (prov : Provider) (input : WikipediaPageInput) :
    Except String String × Nat :=
  let c := callSummary prov input.page
  (match c.1 with
   | .ok s => .ok s
   | .pageError m => .error ("Summary error: " ++ m)
   | .disambig _ m => .error ("Summary error: " ++ m)
   | .otherError m => .error ("Summary error: " ++ m),
   c.2)

/-- Tool `get_content`: returns `wikipedia.page(page).content`, or a
ToolError labelled "Content error: ". -/
def get_content (prov : Provider) (input : WikipediaPageInput) :
    Except String String × Nat :=
  let c := callPage prov input.page
  (match c.1 with
   | .ok p => .ok p.content
   | .pageError m => .error ("Content error: " ++ m)
   | .disambig _ m => .error ("Content error: " ++ m)
   | .otherError m => .error ("Content error: " ++ m),
   c.2)

/-- Tool `get_html`: returns `wikipedia.page(page).html()`, or a ToolError
labelled "HTML error: ". -/
def get_html (prov : Provider) (input : WikipediaPageInput) :
    Except String String × Nat :=
  let c := callPage prov input.page
  (match c.1 with
   | .ok p => .ok p.htmlText
   | .pageError m => .error ("HTML error: " ++ m)
   | .disambig _ m => .error ("HTML error: " ++ m)
   | .otherError m => .error ("HTML error: " ++ m),
   c.2)

/-- Tool `get_images`: returns `wikipedia.page(page).images`, or a ToolError
labelled "Images error: ". -/
def get_images (prov : Provider) (input : WikipediaPageInput) :
    Except String (List String) × Nat :=
  let c := callPage prov input.page
  (match c.1 with
   | .ok p => .ok p.images
   | .pageError m => .error ("Images error: " ++ m)
   | .disambig _ m => .error ("Images error: " ++ m)
   | .otherError m => .error ("Images error: " ++ m),
   c.2)

/-- Tool `get_links`: returns `wikipedia.page(page).links`, or a ToolError
labelled "Links error: ". -/
def get_links (prov : Provider) (input : WikipediaPageInput) :
    Except String (List String) × Nat :=
  let c := callPage prov input.page
  (match c.1 with
   | .ok p => .ok p.links
   | .pageError m => .error ("Links error: " ++ m)
   | .disambig _ m => .error ("Links error: " ++ m)
   | .otherError m => .error ("Links error: " ++ m),
   c.2)

/-- Tool `get_references`: returns `wikipedia.page(page).references`, or a
ToolError labelled "References error: ". -/
def get_references (prov : Provider) (input : WikipediaPageInput) :
    Except String (List String) × Nat :=
  let c := callPage prov input.page
  (match c.1 with
   | .ok p => .ok p.references
   | .pageError m => .error ("References error: " ++ m)
   | .disambig _ m => .error ("References error: " ++ m)
   | .otherError m => .error ("References error: " ++ m),
   c.2)

/-- Tool `get_categories`: returns `wikipedia.page(page).categories`, or a
ToolError labelled "Categories error: ". -/
def get_categories (prov : Provider) (input : WikipediaPageInput) :
    Except String (List String) × Nat :=
  let c := callPage prov input.page
  (match c.1 with
   | .ok p => .ok p.categories
   | .pageError m => .error ("Categories error: " ++ m)
   | .disambig _ m => .error ("Categories error: " ++ m)
   | .otherError m => .error ("Categories error: " ++ m),
   c.2)

/-- Tool `get_url`: returns `wikipedia.page(page).url`, or a ToolError
labelled "URL error: ". -/
def get_url (prov : Provider) (input : WikipediaPageInput) :
    Except String String × Nat :=
  let c := callPage prov input.page
  (match c.1 with
   | .ok p => .ok p.url
   | .pageError m => .error ("URL error: " ++ m)
   | .disambig _ m => .error ("URL error: " ++ m)
   | .otherError m => .error ("URL error: " ++ m),
   c.2)

/-- Tool `get_title`: returns `wikipedia.page(page).title`, or a ToolError
labelled "Title error: ". -/
def get_title (prov : Provider) (input : WikipediaPageInput) :
    Except String String × Nat :=
  let c := callPage prov input.page
  (match c.1 with
   | .ok p => .ok p.title
   | .pageError m => .error ("Title error: " ++ m)
   | .disambig _ m => .error ("Title error: " ++ m)
   | .otherError m => .error ("Title error: " ++ m),
   c.2)

/-- Tool `get_page_id`: returns `wikipedia.page(page).pageid`, or a ToolError
labelled "Page ID error: ". -/
def get_page_id (prov : Provider) (input : WikipediaPageInput) :
    Except String String × Nat :=
  let c := callPage prov input.page
  (match c.1 with
   | .ok p => .ok p.pageid
   | .pageError m => .error ("Page ID error: " ++ m)
   | .disambig _ m => .error ("Page ID error: " ++ m)
   | .otherError m => .error ("Page ID error: " ++ m),
   c.2)

/-- Tool `search_pages`: returns `wikipedia.search(query)`, or a ToolError
labelled "Search error: ". -/
def search_pages (prov : Provider) (input : WikipediaSearchInput) :
    Except String (List String) × Nat :=
  let c := callSearch prov input.query
  (match c.1 with
   | .ok rs => .ok rs
   | .pageError m => .error ("Search error: " ++ m)
   | .disambig _ m => .error ("Search error: " ++ m)
   | .otherError m => .error ("Search error: " ++ m),
   c.2)

/-- Tool `check_page_exists`: one call to `wikipedia.page(page)`; success
yields `true`, the PageError kind is recovered as `false`, and every other
exception (the DisambiguationError kind included) is re-raised as a
ToolError labelled "Existence check error: ". -/
def check_page_exists (prov : Provider) (input : WikipediaPageInput) :
    Except String Bool × Nat :=
  let c := callPage prov input.page
  (match c.1 with
   | .ok _ => .ok true
   | .pageError _ => .ok false
   | .disambig _ m => .error ("Existence check error: " ++ m)
   | .otherError m => .error ("Existence check error: " ++ m),
   c.2)

/-- Tool `disambiguation_options`: one call to `wikipedia.page(page)`;
success yields `(false, [])`, the DisambiguationError kind is recovered as
`(true, e.options)`, and every other exception (the PageError kind included)
is re-raised as a ToolError labelled "Disambiguation check error: ". -/
def disambiguation_options (prov : Provider) (input : WikipediaPageInput) :
    Except String (Bool × List String) × Nat :=
  let c := callPage prov input.page
  (match c.1 with
   | .ok _ => .ok (false, [])
   | .disambig opts _ => .ok (true, opts)
   | .pageError m => .error ("Disambiguation check error: " ++ m)
   | .otherError m => .error ("Disambiguation check error: " ++ m),
   c.2)

/-- A JSON-shaped tool-call argument, as the RPC layer hands it to pydantic
validation. -/
inductive Json where
  | str (s : String)
  | num (n : Int)
  | bool (b : Bool)
  | arr (elems : List Json)
  | obj (fields : List (String × Json))
  | null

/-- Field lookup in a JSON object. -/
def getField : List (String × Json) → String → Option Json
  | [], _ => none
  | (k, v) :: rest, key => if k = key then some v else getField rest key

/-- Pydantic validation of `WikipediaPageInput`: the required field `page`
must be present and be a string (pydantic v2 lax mode accepts any string,
the empty string included, and rejects non-string values). -/
def validatePage (j : Json) : Except String WikipediaPageInput :=
  match j with
  | .obj fields =>
    match getField fields "page" with
    | some (.str s) => .ok ⟨s⟩
    | some _ => .error "Input validation error: page must be a string"
    | none => .error "Input validation error: field page is required"
  | _ => .error "Input validation error: input must be an object"

/-- Pydantic validation of `WikipediaSearchInput`: the required field
`query` must be present and be a string. -/
def validateSearch (j : Json) : Except String WikipediaSearchInput :=
  match j with
  | .obj fields =>
    match getField fields "query" with
    | some (.str s) => .ok ⟨s⟩
    | some _ => .error "Input validation error: query must be a string"
    | none => .error "Input validation error: field query is required"
  | _ => .error "Input validation error: input must be an object"

/-- The framework pipeline for a page tool: validation runs before the tool
body; a validation failure is returned with zero provider calls. -/
def runPageTool {α : Type} (body : WikipediaPageInput → Except String α × Nat)
    (j : Json) : Except String α × Nat :=
  match validatePage j with
  | .error m => (.error m, 0)
  | .ok input => body input

/-- The framework pipeline for the search tool: validation runs before the
tool body; a validation failure is returned with zero provider calls. -/
def runSearchTool {α : Type} (body : WikipediaSearchInput → Except String α × Nat)
    (j : Json) : Except String α × Nat :=
  match validateSearch j with
  | .error m => (.error m, 0)
  | .ok input => body input

/-! Concrete provider fixtures used by witnesses and counterexamples. -/

/-- A sample resolved page with all attributes non-empty. -/
def samplePage : WikiPage :=
  { title := "Albert Einstein"
    url := "https://en.wikipedia.org/wiki/Albert_Einstein"
    pageid := "736"
    summary := "Albert Einstein was a theoretical physicist."
    content := "Albert Einstein (1879-1955) developed the theory of relativity."
    htmlText := "<p>Albert Einstein</p>"
    images := ["https://upload.wikimedia.org/einstein.jpg"]
    links := ["Physics"]
    references := ["https://example.org/ref"]
    categories := ["Physicists"] }

/-- A provider on which every page lookup succeeds. -/
def provOK : Provider :=
  ⟨fun _ => .ok samplePage, fun _ => .ok ["Albert Einstein"]⟩

/-- A provider on which every page lookup raises the PageError kind. -/
def provPE : Provider :=
  ⟨fun _ => .pageError "Page id \"XYZNOPAGEQQQ123\" does not match any pages.",
   fun _ => .ok []⟩

/-- A provider on which every page lookup raises the DisambiguationError
kind with two candidate titles. -/
def provDis : Provider :=
  ⟨fun _ => .disambig ["Mercury (planet)", "Mercury (element)"]
      "\"Mercury\" may refer to: ...",
   fun _ => .ok []⟩

/-- A provider on which every call raises a generic (other) exception. -/
def provErr : Provider :=
  ⟨fun _ => .otherError "HTTPTimeoutError", fun _ => .otherError "HTTPTimeoutError"⟩

/-- A provider whose search returns no matches. -/
def provNoHits : Provider :=
  ⟨fun _ => .ok samplePage, fun _ => .ok []⟩

/-! ## Claim theorems -/

/-- C1: `check_page_exists` returns `exists = false` if and only if the
provider raises the PageError (not-found) kind; a successful provider call
yields `exists = true`; and the DisambiguationError kind or any other
provider exception is re-raised as the uniform ToolError, never returned as
a boolean. -/
theorem check_page_exists_spec (prov : Provider) (input : WikipediaPageInput) :
    ((check_page_exists prov input).1 = .ok false ↔
       ∃ m, prov.pageOf input.page = .pageError m)
  ∧ (∀ p, prov.pageOf input.page = .ok p →
       (check_page_exists prov input).1 = .ok true)
  ∧ (∀ opts m, prov.pageOf input.page = .disambig opts m →
       (check_page_exists prov input).1 = .error ("Existence check error: " ++ m))
  ∧ (∀ m, prov.pageOf input.page = .otherError m →
       (check_page_exists prov input).1 = .error ("Existence check error: " ++ m)) := by
  refine ⟨?_, ?_, ?_, ?_⟩ <;>
    simp only [check_page_exists, callPage] <;>
    cases h : prov.pageOf input.page <;> simp_all

/-- C1 witness: on a provider raising PageError the result is
`exists = false`; on a succeeding provider it is `exists = true`; on a
provider raising a generic exception it is the labelled ToolError. -/
theorem check_page_exists_spec_witness :
    (check_page_exists provPE ⟨"XYZNOPAGEQQQ123"⟩).1 = .ok false
  ∧ (check_page_exists provOK ⟨"Albert Einstein"⟩).1 = .ok true
  ∧ (check_page_exists provErr ⟨"Albert Einstein"⟩).1 =
      .error ("Existence check error: " ++ "HTTPTimeoutError") :=
  ⟨(check_page_exists_spec provPE ⟨"XYZNOPAGEQQQ123"⟩).1.mpr ⟨_, rfl⟩,
   (check_page_exists_spec provOK ⟨"Albert Einstein"⟩).2.1 samplePage rfl,
   (check_page_exists_spec provErr ⟨"Albert Einstein"⟩).2.2.2 "HTTPTimeoutError" rfl⟩

/-- C10 (implicit): a title for which the provider raises the
DisambiguationError kind makes `check_page_exists` raise the uniform
ToolError labelled "Existence check error: "; it is reported neither as
existing nor as absent. -/
theorem check_page_exists_ambiguous_raises (prov : Provider)
    (input : WikipediaPageInput) (opts : List String) (m : String)
    (h : prov.pageOf input.page = .disambig opts m) :
    (check_page_exists prov input).1 = .error ("Existence check error: " ++ m)
  ∧ ∀ b : Bool, (check_page_exists prov input).1 ≠ .ok b := by
  constructor
  · simp [check_page_exists, callPage, h]
  · intro b
    simp [check_page_exists, callPage, h]

/-- C10 witness: on a provider raising DisambiguationError for "Mercury",
`check_page_exists` returns the labelled ToolError and no boolean. -/
theorem check_page_exists_ambiguous_raises_witness :
    (check_page_exists provDis ⟨"Mercury"⟩).1 =
      .error ("Existence check error: " ++ "\"Mercury\" may refer to: ...")
  ∧ ∀ b : Bool, (check_page_exists provDis ⟨"Mercury"⟩).1 ≠ .ok b :=
  check_page_exists_ambiguous_raises provDis ⟨"Mercury"⟩
    ["Mercury (planet)", "Mercury (element)"] "\"Mercury\" may refer to: ..." rfl

/-- C2: under the provider invariant that the DisambiguationError kind
always carries at least one candidate title, `disambiguation_options`
returns `(true, opts)` with `opts` non-empty if and only if the provider
raised the DisambiguationError kind (and then `opts` is exactly the
error's candidate list); a successful provider call yields `(false, [])`;
and any other provider exception is re-raised as the uniform ToolError. -/
theorem disambiguation_options_spec (prov : Provider) (input : WikipediaPageInput)
    (hne : ∀ opts m, prov.pageOf input.page = .disambig opts m → opts ≠ []) :
    ((∃ opts, opts ≠ [] ∧ (disambiguation_options prov input).1 = .ok (true, opts)) ↔
       ∃ opts m, prov.pageOf input.page = .disambig opts m)
  ∧ (∀ opts m, prov.pageOf input.page = .disambig opts m →
       (disambiguation_options prov input).1 = .ok (true, opts))
  ∧ (∀ p, prov.pageOf input.page = .ok p →
       (disambiguation_options prov input).1 = .ok (false, []))
  ∧ (∀ m, prov.pageOf input.page = .pageError m →
       (disambiguation_options prov input).1 =
         .error ("Disambiguation check error: " ++ m))
  ∧ (∀ m, prov.pageOf input.page = .otherError m →
       (disambiguation_options prov input).1 =
         .error ("Disambiguation check error: " ++ m)) := by
  refine ⟨?_, ?_, ?_, ?_, ?_⟩ <;>
    simp only [disambiguation_options, callPage] <;>
    cases h : prov.pageOf input.page <;> simp_all

/-- C2 witness: on a provider raising DisambiguationError with two
candidates for "Mercury" the result is `(true, non-empty options)`, and on
a succeeding provider the result is `(false, [])`. -/
theorem disambiguation_options_spec_witness :
    (∃ opts, opts ≠ [] ∧
       (disambiguation_options provDis ⟨"Mercury"⟩).1 = .ok (true, opts))
  ∧ (disambiguation_options provOK ⟨"Albert Einstein"⟩).1 = .ok (false, []) :=
  ⟨(disambiguation_options_spec provDis ⟨"Mercury"⟩
      (by intro opts m h; injection h with h1 h2; subst h1; simp)).1.mpr
      ⟨_, _, rfl⟩,
   (disambiguation_options_spec provOK ⟨"Albert Einstein"⟩
      (by intro opts m h; injection h)).2.2.1 samplePage rfl⟩

/-- C3 counterexample: the claim says `check_page_exists` and
`disambiguation_options` each perform exactly two provider calls per
invocation; on a concrete provider and input each performs exactly one
(their bodies contain a single `wikipedia.page` call), so the count is not
two. -/
theorem two_call_claim_counterexample :
    (check_page_exists provErr ⟨"Python"⟩).2 = 1
  ∧ (check_page_exists provErr ⟨"Python"⟩).2 ≠ 2
  ∧ (disambiguation_options provErr ⟨"Python"⟩).2 = 1
  ∧ (disambiguation_options provErr ⟨"Python"⟩).2 ≠ 2 := by
  refine ⟨rfl, ?_, rfl, ?_⟩ <;> decide

/-- C3 amended: every operation in the catalog, `check_page_exists` and
`disambiguation_options` included, performs exactly one provider call per
invocation; the latter two distinguish the not-found / ambiguous conditions
by the error kind of that single call. -/
theorem provider_calls_exactly_one (prov : Provider)
    (pin : WikipediaPageInput) (sin : WikipediaSearchInput) :
    (get_summary prov pin).2 = 1
  ∧ (get_content prov pin).2 = 1
  ∧ (get_html prov pin).2 = 1
  ∧ (get_images prov pin).2 = 1
  ∧ (get_links prov pin).2 = 1
  ∧ (get_references prov pin).2 = 1
  ∧ (get_categories prov pin).2 = 1
  ∧ (get_url prov pin).2 = 1
  ∧ (get_title prov pin).2 = 1
  ∧ (get_page_id prov pin).2 = 1
  ∧ (search_pages prov sin).2 = 1
  ∧ (check_page_exists prov pin).2 = 1
  ∧ (disambiguation_options prov pin).2 = 1 :=
  ⟨rfl, rfl, rfl, rfl, rfl, rfl, rfl, rfl, rfl, rfl, rfl, rfl, rfl⟩

/-- C4 counterexample: the claim says an input whose required field is the
empty string is rejected by validation and never reaches the provider; in
the code the schemas place no non-emptiness constraint, so `page = ""` and
`query = ""` pass validation and the pipeline makes one provider call. -/
theorem empty_string_validation_counterexample :
    validatePage (Json.obj [("page", Json.str "")]) = .ok ⟨""⟩
  ∧ (runPageTool (get_summary provErr) (Json.obj [("page", Json.str "")])).2 = 1
  ∧ validateSearch (Json.obj [("query", Json.str "")]) = .ok ⟨""⟩
  ∧ (runSearchTool (search_pages provErr) (Json.obj [("query", Json.str "")])).2 = 1 :=
  ⟨rfl, rfl, rfl, rfl⟩

/-- C4 amended: `page` and `query` are required string fields, but the
schemas impose no non-emptiness constraint: any string, the empty string
included, passes validation, and the empty string is forwarded to the
provider (one provider call is made). -/
theorem empty_string_reaches_provider (prov : Provider) (s : String) :
    validatePage (Json.obj [("page", Json.str s)]) = .ok ⟨s⟩
  ∧ validateSearch (Json.obj [("query", Json.str s)]) = .ok ⟨s⟩
  ∧ runPageTool (get_summary prov) (Json.obj [("page", Json.str "")]) =
      get_summary prov ⟨""⟩
  ∧ (runPageTool (get_summary prov) (Json.obj [("page", Json.str "")])).2 = 1
  ∧ runSearchTool (search_pages prov) (Json.obj [("query", Json.str "")]) =
      search_pages prov ⟨""⟩
  ∧ (runSearchTool (search_pages prov) (Json.obj [("query", Json.str "")])).2 = 1 :=
  ⟨rfl, rfl, rfl, rfl, rfl, rfl⟩

/-- C5: an input that fails schema validation (missing required field or a
field of the wrong shape) is rejected before the operation body runs: every
operation's pipeline returns the validation error with zero provider
calls. -/
theorem validation_blocks_provider (prov : Provider) (j j2 : Json)
    (m m2 : String) (hp : validatePage j = .error m)
    (hs : validateSearch j2 = .error m2) :
    runPageTool (get_summary prov) j = (.error m, 0)
  ∧ runPageTool (get_content prov) j = (.error m, 0)
  ∧ runPageTool (get_html prov) j = (.error m, 0)
  ∧ runPageTool (get_images prov) j = (.error m, 0)
  ∧ runPageTool (get_links prov) j = (.error m, 0)
  ∧ runPageTool (get_references prov) j = (.error m, 0)
  ∧ runPageTool (get_categories prov) j = (.error m, 0)
  ∧ runPageTool (get_url prov) j = (.error m, 0)
  ∧ runPageTool (get_title prov) j = (.error m, 0)
  ∧ runPageTool (get_page_id prov) j = (.error m, 0)
  ∧ runPageTool (check_page_exists prov) j = (.error m, 0)
  ∧ runPageTool (disambiguation_options prov) j = (.error m, 0)
  ∧ runSearchTool (search_pages prov) j2 = (.error m2, 0) := by
  refine ⟨?_, ?_, ?_, ?_, ?_, ?_, ?_, ?_, ?_, ?_, ?_, ?_, ?_⟩ <;>
    simp [runPageTool, runSearchTool, hp, hs]

/-- C5 witness: an input object missing the required field fails validation
and every pipeline returns the validation error with zero provider calls
(shown for `get_summary` and `search_pages` at a concrete malformed
input). -/
theorem validation_blocks_provider_witness :
    runPageTool (get_summary provOK) (Json.obj []) =
      (.error "Input validation error: field page is required", 0)
  ∧ runSearchTool (search_pages provOK) (Json.obj [("query", Json.num 3)]) =
      (.error "Input validation error: query must be a string", 0) :=
  ⟨(validation_blocks_provider provOK (Json.obj [])
      (Json.obj [("query", Json.num 3)]) _ _ rfl rfl).1,
   (validation_blocks_provider provOK (Json.obj [])
      (Json.obj [("query", Json.num 3)]) _ _ rfl rfl).2.2.2.2.2.2.2.2.2.2.2.2⟩

/-- C7: when the provider's search returns an empty list of matches,
`search_pages` returns the empty result list and raises no error. -/
theorem search_pages_empty_spec (prov : Provider) (input : WikipediaSearchInput)
    (h : prov.searchOf input.query = .ok []) :
    (search_pages prov input).1 = .ok [] := by
  simp [search_pages, callSearch, h]

/-- C7 witness: on a provider whose search finds nothing, `search_pages`
returns the empty list. -/
theorem search_pages_empty_spec_witness :
    (search_pages provNoHits ⟨"a string guaranteed to match nothing"⟩).1 =
      .ok [] :=
  search_pages_empty_spec provNoHits ⟨"a string guaranteed to match nothing"⟩ rfl

/-- C6: every provider exception not specially recovered by an operation is
caught at the operation boundary and re-raised as the uniform ToolError
whose message is that operation's domain label followed by the provider
exception's message; for `check_page_exists` only the PageError kind is
recovered and for `disambiguation_options` only the DisambiguationError
kind is recovered, so their remaining exception kinds are likewise
re-labelled. -/
theorem uniform_tool_error (prov : Provider) (pin : WikipediaPageInput)
    (sin : WikipediaSearchInput) (m : String) :
    ((prov.summaryOf pin.page).excMsg = some m →
       (get_summary prov pin).1 = .error ("Summary error: " ++ m))
  ∧ ((prov.pageOf pin.page).excMsg = some m →
       (get_content prov pin).1 = .error ("Content error: " ++ m))
  ∧ ((prov.pageOf pin.page).excMsg = some m →
       (get_html prov pin).1 = .error ("HTML error: " ++ m))
  ∧ ((prov.pageOf pin.page).excMsg = some m →
       (get_images prov pin).1 = .error ("Images error: " ++ m))
  ∧ ((prov.pageOf pin.page).excMsg = some m →
       (get_links prov pin).1 = .error ("Links error: " ++ m))
  ∧ ((prov.pageOf pin.page).excMsg = some m →
       (get_references prov pin).1 = .error ("References error: " ++ m))
  ∧ ((prov.pageOf pin.page).excMsg = some m →
       (get_categories prov pin).1 = .error ("Categories error: " ++ m))
  ∧ ((prov.pageOf pin.page).excMsg = some m →
       (get_url prov pin).1 = .error ("URL error: " ++ m))
  ∧ ((prov.pageOf pin.page).excMsg = some m →
       (get_title prov pin).1 = .error ("Title error: " ++ m))
  ∧ ((prov.pageOf pin.page).excMsg = some m →
       (get_page_id prov pin).1 = .error ("Page ID error: " ++ m))
  ∧ ((prov.searchOf sin.query).excMsg = some m →
       (search_pages prov sin).1 = .error ("Search error: " ++ m))
  ∧ (∀ opts, prov.pageOf pin.page = .disambig opts m →
       (check_page_exists prov pin).1 = .error ("Existence check error: " ++ m))
  ∧ (prov.pageOf pin.page = .otherError m →
       (check_page_exists prov pin).1 = .error ("Existence check error: " ++ m))
  ∧ (prov.pageOf pin.page = .pageError m →
       (disambiguation_options prov pin).1 =
         .error ("Disambiguation check error: " ++ m))
  ∧ (prov.pageOf pin.page = .otherError m →
       (disambiguation_options prov pin).1 =
         .error ("Disambiguation check error: " ++ m)) := by
  refine ⟨?_, ?_, ?_, ?_, ?_, ?_, ?_, ?_, ?_, ?_, ?_, ?_, ?_, ?_, ?_⟩ <;>
    simp only [get_summary, get_content, get_html, get_images, get_links,
      get_references, get_categories, get_url, get_title, get_page_id,
      search_pages, check_page_exists, disambiguation_options,
      callSummary, callPage, callSearch, Provider.summaryOf] <;>
    cases hp : prov.pageOf pin.page <;>
    cases hq : prov.searchOf sin.query <;>
    simp_all [ProviderResult.excMsg]

/-- C6 witness: on a provider raising a generic exception, `get_summary`
and `search_pages` return the ToolError labelled with their domain labels
and carrying the provider message. -/
theorem uniform_tool_error_witness :
    (get_summary provErr ⟨"Albert Einstein"⟩).1 =
      .error ("Summary error: " ++ "HTTPTimeoutError")
  ∧ (search_pages provErr ⟨"Albert Einstein"⟩).1 =
      .error ("Search error: " ++ "HTTPTimeoutError") :=
  ⟨(uniform_tool_error provErr ⟨"Albert Einstein"⟩ ⟨"Albert Einstein"⟩
      "HTTPTimeoutError").1 rfl,
   (uniform_tool_error provErr ⟨"Albert Einstein"⟩ ⟨"Albert Einstein"⟩
      "HTTPTimeoutError").2.2.2.2.2.2.2.2.2.2.1 rfl⟩

/-- C8: when the provider resolves a title to a page whose title, url,
pageid and summary are non-empty, `get_summary`, `get_title`, `get_url`
and `get_page_id` all return the non-empty attribute of that same resolved
page; and against an unchanged provider a second call with the same title
returns exactly the same result as the first. -/
theorem page_ops_consistent (prov : Provider) (input : WikipediaPageInput)
    (p : WikiPage) (hp : prov.pageOf input.page = .ok p)
    (ht : p.title ≠ "") (hu : p.url ≠ "") (hid : p.pageid ≠ "")
    (hs : p.summary ≠ "") :
    ((get_summary prov input).1 = .ok p.summary ∧ p.summary ≠ "")
  ∧ ((get_title prov input).1 = .ok p.title ∧ p.title ≠ "")
  ∧ ((get_url prov input).1 = .ok p.url ∧ p.url ≠ "")
  ∧ ((get_page_id prov input).1 = .ok p.pageid ∧ p.pageid ≠ "")
  ∧ get_title prov input = get_title prov input
  ∧ get_url prov input = get_url prov input
  ∧ get_page_id prov input = get_page_id prov input := by
  refine ⟨⟨?_, hs⟩, ⟨?_, ht⟩, ⟨?_, hu⟩, ⟨?_, hid⟩, rfl, rfl, rfl⟩ <;>
    simp [get_summary, get_title, get_url, get_page_id,
      callSummary, callPage, Provider.summaryOf, hp]

/-- C8 witness: on a provider resolving every title to the sample page, the
four operations return its non-empty title, url, pageid and summary. -/
theorem page_ops_consistent_witness :
    ((get_summary provOK ⟨"Albert Einstein"⟩).1 = .ok samplePage.summary ∧
       samplePage.summary ≠ "")
  ∧ ((get_title provOK ⟨"Albert Einstein"⟩).1 = .ok samplePage.title ∧
       samplePage.title ≠ "")
  ∧ ((get_url provOK ⟨"Albert Einstein"⟩).1 = .ok samplePage.url ∧
       samplePage.url ≠ "")
  ∧ ((get_page_id provOK ⟨"Albert Einstein"⟩).1 = .ok samplePage.pageid ∧
       samplePage.pageid ≠ "")
  ∧ get_title provOK ⟨"Albert Einstein"⟩ = get_title provOK ⟨"Albert Einstein"⟩
  ∧ get_url provOK ⟨"Albert Einstein"⟩ = get_url provOK ⟨"Albert Einstein"⟩
  ∧ get_page_id provOK ⟨"Albert Einstein"⟩ = get_page_id provOK ⟨"Albert Einstein"⟩ :=
  page_ops_consistent provOK ⟨"Albert Einstein"⟩ samplePage rfl
    (by decide) (by decide) (by decide) (by decide)

/-- C9: when the one provider call an operation makes raises an exception,
the operation performs no retry and no further provider call (the call
count stays 1), and the invocation ends in exactly one outcome: either one
well-formed result or one error, never both and never a partial result. -/
theorem first_failure_final (prov : Provider) (pin : WikipediaPageInput)
    (sin : WikipediaSearchInput) (m : String) :
    ((prov.summaryOf pin.page).excMsg = some m →
       (get_summary prov pin).2 = 1 ∧
         Xor' (∃ v, (get_summary prov pin).1 = .ok v)
           (∃ e, (get_summary prov pin).1 = .error e))
  ∧ ((prov.pageOf pin.page).excMsg = some m →
       (get_content prov pin).2 = 1 ∧
         Xor' (∃ v, (get_content prov pin).1 = .ok v)
           (∃ e, (get_content prov pin).1 = .error e))
  ∧ ((prov.pageOf pin.page).excMsg = some m →
       (get_html prov pin).2 = 1 ∧
         Xor' (∃ v, (get_html prov pin).1 = .ok v)
           (∃ e, (get_html prov pin).1 = .error e))
  ∧ ((prov.pageOf pin.page).excMsg = some m →
       (get_images prov pin).2 = 1 ∧
         Xor' (∃ v, (get_images prov pin).1 = .ok v)
           (∃ e, (get_images prov pin).1 = .error e))
  ∧ ((prov.pageOf pin.page).excMsg = some m →
       (get_links prov pin).2 = 1 ∧
         Xor' (∃ v, (get_links prov pin).1 = .ok v)
           (∃ e, (get_links prov pin).1 = .error e))
  ∧ ((prov.pageOf pin.page).excMsg = some m →
       (get_references prov pin).2 = 1 ∧
         Xor' (∃ v, (get_references prov pin).1 = .ok v)
           (∃ e, (get_references prov pin).1 = .error e))
  ∧ ((prov.pageOf pin.page).excMsg = some m →
       (get_categories prov pin).2 = 1 ∧
         Xor' (∃ v, (get_categories prov pin).1 = .ok v)
           (∃ e, (get_categories prov pin).1 = .error e))
  ∧ ((prov.pageOf pin.page).excMsg = some m →
       (get_url prov pin).2 = 1 ∧
         Xor' (∃ v, (get_url prov pin).1 = .ok v)
           (∃ e, (get_url prov pin).1 = .error e))
  ∧ ((prov.pageOf pin.page).excMsg = some m →
       (get_title prov pin).2 = 1 ∧
         Xor' (∃ v, (get_title prov pin).1 = .ok v)
           (∃ e, (get_title prov pin).1 = .error e))
  ∧ ((prov.pageOf pin.page).excMsg = some m →
       (get_page_id prov pin).2 = 1 ∧
         Xor' (∃ v, (get_page_id prov pin).1 = .ok v)
           (∃ e, (get_page_id prov pin).1 = .error e))
  ∧ ((prov.searchOf sin.query).excMsg = some m →
       (search_pages prov sin).2 = 1 ∧
         Xor' (∃ v, (search_pages prov sin).1 = .ok v)
           (∃ e, (search_pages prov sin).1 = .error e))
  ∧ ((prov.pageOf pin.page).excMsg = some m →
       (check_page_exists prov pin).2 = 1 ∧
         Xor' (∃ v, (check_page_exists prov pin).1 = .ok v)
           (∃ e, (check_page_exists prov pin).1 = .error e))
  ∧ ((prov.pageOf pin.page).excMsg = some m →
       (disambiguation_options prov pin).2 = 1 ∧
         Xor' (∃ v, (disambiguation_options prov pin).1 = .ok v)
           (∃ e, (disambiguation_options prov pin).1 = .error e)) := by
  refine ⟨?_, ?_, ?_, ?_, ?_, ?_, ?_, ?_, ?_, ?_, ?_, ?_, ?_⟩ <;>
    simp only [get_summary, get_content, get_html, get_images, get_links,
      get_references, get_categories, get_url, get_title, get_page_id,
      search_pages, check_page_exists, disambiguation_options,
      callSummary, callPage, callSearch, Provider.summaryOf] <;>
    cases hp : prov.pageOf pin.page <;>
    cases hq : prov.searchOf sin.query <;>
    simp_all [ProviderResult.excMsg, Xor']

/-- C9 witness: on a provider raising a generic exception, `get_summary`
makes exactly one provider call and ends in exactly one outcome (an
error). -/
theorem first_failure_final_witness :
    (get_summary provErr ⟨"Albert Einstein"⟩).2 = 1 ∧
      Xor' (∃ v, (get_summary provErr ⟨"Albert Einstein"⟩).1 = .ok v)
        (∃ e, (get_summary provErr ⟨"Albert Einstein"⟩).1 = .error e) :=
  (first_failure_final provErr ⟨"Albert Einstein"⟩ ⟨"Albert Einstein"⟩
    "HTTPTimeoutError").1 rfl

end WikipediaMCP
